import Mathlib

/-!
# Panic code registry and platform version constants

A shallow embedding of two headers of the firmware tree:

* `deprecated/tos/platforms/mm4/platform_panic.h`: an anonymous C `enum`
  whose first enumerator is initialised with `PANIC_HC_START`, followed by
  a block of `#define`s that give the enumerators their public names;
* `tos/platforms/dev6a/platform_version.h`: four object-like `#define`s.

The enum is modelled as data (the list of its enumerators, with the
`#ifdef notdef` block controlled by a boolean) together with the value
assignment rule of the C language for enumeration constants.
`PANIC_HC_START` comes from `panic.h`, which is not part of the sources at
hand, so it is a parameter everywhere.  Panic codes are unsigned
quantities, so the parameter ranges over the natural numbers; values are
not reduced modulo a word size, because an enumeration constant that does
not fit `int` is rejected by the compiler rather than wrapped.
-/

namespace MM

/-- Storing a value in an unsigned 8-bit object. -/
def toUint8 (v : Nat) : Nat := v % 2 ^ 8

namespace PlatformPanic

/-- One enumerator of an enum specifier: its identifier and the optional
`= constant-expression` initialiser. -/
structure Enumerator where
  name : String
  init : Option Nat
  deriving DecidableEq, Repr

/-- The enumeration constants in scope after an enum specifier, in
declaration order, each with its value. -/
abbrev EnumEnv := List (String × Nat)

/-- Value assignment of the C language for an enumerator list: an
enumerator with `=` takes the value of its initialiser, an enumerator
without `=` takes the value of the previous one plus one. `next` is the
value an enumerator without initialiser receives at this position. -/
def enumAssign : Nat → List Enumerator → EnumEnv
  | _, [] => []
  | next, e :: es =>
    let v := e.init.getD next
    (e.name, v) :: enumAssign (v + 1) es

/-- The constants declared by a whole enum specifier; a first enumerator
without initialiser has value zero. -/
def enumValues (es : List Enumerator) : EnumEnv := enumAssign 0 es

/-- Resolution of an identifier to the enumeration constant of that name. -/
def enumLookup (id : String) : EnumEnv → Option Nat
  | [] => none
  | (n, v) :: rest => if n = id then some v else enumLookup id rest

/-- Lines 23 to 29 of `platform_panic.h`: the enumerators that are always
compiled. Only the first one carries an initialiser. -/
def activeEnumerators (PANIC_HC_START : Nat) : List Enumerator :=
  [ ⟨"__pcode_adc", some PANIC_HC_START⟩,
    ⟨"__pcode_misc", none⟩,
    ⟨"__pcode_comm", none⟩,
    ⟨"__pcode_ms", none⟩,
    ⟨"__pcode_ss", none⟩,
    ⟨"__pcode_ss_recov", none⟩,
    ⟨"__pcode_gps", none⟩ ]

/-- Lines 31 to 34 of `platform_panic.h`: the enumerators inside
`#ifdef notdef ... #endif`. The preprocessor removes them when `notdef` is
not defined. -/
def reservedEnumerators (notdef : Bool) : List Enumerator :=
  if notdef then [ ⟨"__pcode_sns", none⟩, ⟨"__pcode_pwr", none⟩ ] else []

/-- The enumerator list of the enum of `platform_panic.h` after
preprocessing. -/
def pcodeEnumerators (PANIC_HC_START : Nat) (notdef : Bool) : List Enumerator :=
  activeEnumerators PANIC_HC_START ++ reservedEnumerators notdef

/-- The enumeration constants `platform_panic.h` puts in scope. -/
def platform_panic (PANIC_HC_START : Nat) (notdef : Bool) : EnumEnv :=
  enumValues (pcodeEnumerators PANIC_HC_START notdef)

/-- The enum of `platform_panic.h` with further enumerators written into
it: `mid` directly after `__pcode_gps` (before the `#ifdef notdef` block)
and `tail` after the `#endif` (before the closing brace). With both lists
empty this is `pcodeEnumerators`. -/
def pcodeEnumeratorsWith (PANIC_HC_START : Nat) (notdef : Bool)
    (mid tail : List Enumerator) : List Enumerator :=
  activeEnumerators PANIC_HC_START ++ mid ++ reservedEnumerators notdef ++ tail

/-- The enumeration constants in scope for the enum extended by `mid` and
`tail`. -/
def platform_panic_with (PANIC_HC_START : Nat) (notdef : Bool)
    (mid tail : List Enumerator) : EnumEnv :=
  enumValues (pcodeEnumeratorsWith PANIC_HC_START notdef mid tail)

/-- Expansion of `#define PANIC_ADC __pcode_adc`. -/
def PANIC_ADC (env : EnumEnv) : Option Nat := enumLookup "__pcode_adc" env

/-- Expansion of `#define PANIC_MISC __pcode_misc`. -/
def PANIC_MISC (env : EnumEnv) : Option Nat := enumLookup "__pcode_misc" env

/-- Expansion of `#define PANIC_COMM __pcode_comm`. -/
def PANIC_COMM (env : EnumEnv) : Option Nat := enumLookup "__pcode_comm" env

/-- Expansion of `#define PANIC_MS __pcode_ms`. -/
def PANIC_MS (env : EnumEnv) : Option Nat := enumLookup "__pcode_ms" env

/-- Expansion of `#define PANIC_SS __pcode_ss`. -/
def PANIC_SS (env : EnumEnv) : Option Nat := enumLookup "__pcode_ss" env

/-- Expansion of `#define PANIC_SS_RECOV __pcode_ss_recov`. -/
def PANIC_SS_RECOV (env : EnumEnv) : Option Nat := enumLookup "__pcode_ss_recov" env

/-- Expansion of `#define PANIC_GPS __pcode_gps`. -/
def PANIC_GPS (env : EnumEnv) : Option Nat := enumLookup "__pcode_gps" env

/-- Expansion of `#define PANIC_SNS __pcode_sns`, which exists only under
`#ifdef notdef`. -/
def PANIC_SNS (notdef : Bool) (env : EnumEnv) : Option Nat :=
  if notdef then enumLookup "__pcode_sns" env else none

/-- Expansion of `#define PANIC_PWR __pcode_pwr`, which exists only under
`#ifdef notdef`. -/
def PANIC_PWR (notdef : Bool) (env : EnumEnv) : Option Nat :=
  if notdef then enumLookup "__pcode_pwr" env else none

/-- The seven public panic codes that are always defined, in the order of
their `#define` lines. -/
def activeCodes (env : EnumEnv) : List (Option Nat) :=
  [ PANIC_ADC env, PANIC_MISC env, PANIC_COMM env, PANIC_MS env,
    PANIC_SS env, PANIC_SS_RECOV env, PANIC_GPS env ]

end PlatformPanic

namespace PlatformVersion

/-- Source line `#define MAJOR 0`. -/
def MAJOR : Nat := 0

/-- Source line `#define MINOR 4`. -/
def MINOR : Nat := 4

/-- Source line `#define HW_MODEL 0xF0`. -/
def HW_MODEL : Nat := 0xF0

/-- Source line `#define HW_REV 1`. -/
def HW_REV : Nat := 1

end PlatformVersion

/-! ## The values of the public panic codes -/

namespace PlatformPanic

/-- Whatever is written into the enum after `__pcode_gps`, the seven public
codes are the base plus 0 to 6. -/
theorem activeCodes_platform_panic_with (b : Nat) (nd : Bool) (mid tail : List Enumerator) :
    activeCodes (platform_panic_with b nd mid tail) =
      [some b, some (b + 1), some (b + 2), some (b + 3), some (b + 4), some (b + 5),
       some (b + 6)] := by
  simp [activeCodes, PANIC_ADC, PANIC_MISC, PANIC_COMM, PANIC_MS, PANIC_SS, PANIC_SS_RECOV,
    PANIC_GPS, platform_panic_with, enumValues, pcodeEnumeratorsWith, activeEnumerators,
    enumAssign, enumLookup]

theorem platform_panic_with_nil (b : Nat) (nd : Bool) :
    platform_panic_with b nd [] [] = platform_panic b nd := by
  simp [platform_panic_with, platform_panic, pcodeEnumeratorsWith, pcodeEnumerators]

theorem activeCodes_platform_panic (b : Nat) (nd : Bool) :
    activeCodes (platform_panic b nd) =
      [some b, some (b + 1), some (b + 2), some (b + 3), some (b + 4), some (b + 5),
       some (b + 6)] := by
  rw [← platform_panic_with_nil, activeCodes_platform_panic_with]

/-- Claim C1: with `PANIC_HC_START = 0x70` the enum gives `PANIC_ADC = 0x70`,
`PANIC_MISC = 0x71`, `PANIC_COMM = 0x72`, `PANIC_MS = 0x73`, `PANIC_SS = 0x74`,
`PANIC_SS_RECOV = 0x75` and `PANIC_GPS = 0x76`, whether or not `notdef` is
defined. -/
theorem panic_codes_at_0x70 (notdef : Bool) :
    PANIC_ADC (platform_panic 0x70 notdef) = some 0x70 ∧
    PANIC_MISC (platform_panic 0x70 notdef) = some 0x71 ∧
    PANIC_COMM (platform_panic 0x70 notdef) = some 0x72 ∧
    PANIC_MS (platform_panic 0x70 notdef) = some 0x73 ∧
    PANIC_SS (platform_panic 0x70 notdef) = some 0x74 ∧
    PANIC_SS_RECOV (platform_panic 0x70 notdef) = some 0x75 ∧
    PANIC_GPS (platform_panic 0x70 notdef) = some 0x76 := by
  cases notdef <;> decide

/-- Claim C2: for every base offset the seven active panic codes are all
defined and pairwise distinct: no two different active tags have the same
value. -/
theorem active_codes_pairwise_distinct (PANIC_HC_START : Nat) (notdef : Bool) :
    (∀ c ∈ activeCodes (platform_panic PANIC_HC_START notdef), c.isSome = true) ∧
    (activeCodes (platform_panic PANIC_HC_START notdef)).Pairwise (fun c d => c ≠ d) := by
  rw [activeCodes_platform_panic]
  refine ⟨by simp, ?_⟩
  simp

/-- Claim C3: for every base offset each active panic tag has the value
base plus its zero-based position in the declaration order ADC, MISC, COMM,
MS, SS, SS_RECOV, GPS; each value is its predecessor plus one, the values
increase strictly in declaration order, and the mapping depends on the base
alone (it is the same for either setting of `notdef`). -/
theorem active_codes_base_plus_position (PANIC_HC_START : Nat) (notdef : Bool) :
    PANIC_ADC (platform_panic PANIC_HC_START notdef) = some PANIC_HC_START ∧
    PANIC_MISC (platform_panic PANIC_HC_START notdef) = some (PANIC_HC_START + 1) ∧
    PANIC_COMM (platform_panic PANIC_HC_START notdef) = some (PANIC_HC_START + 2) ∧
    PANIC_MS (platform_panic PANIC_HC_START notdef) = some (PANIC_HC_START + 3) ∧
    PANIC_SS (platform_panic PANIC_HC_START notdef) = some (PANIC_HC_START + 4) ∧
    PANIC_SS_RECOV (platform_panic PANIC_HC_START notdef) = some (PANIC_HC_START + 5) ∧
    PANIC_GPS (platform_panic PANIC_HC_START notdef) = some (PANIC_HC_START + 6) ∧
    activeCodes (platform_panic PANIC_HC_START notdef) =
      (List.range 7).map (fun i => some (PANIC_HC_START + i)) ∧
    (activeCodes (platform_panic PANIC_HC_START notdef)).Chain'
      (fun c d => ∃ u v, c = some u ∧ d = some v ∧ v = u + 1) ∧
    (activeCodes (platform_panic PANIC_HC_START notdef)).Pairwise
      (fun c d => ∃ u v, c = some u ∧ d = some v ∧ u < v) ∧
    (∀ notdef2 : Bool, activeCodes (platform_panic PANIC_HC_START notdef2) =
      activeCodes (platform_panic PANIC_HC_START notdef)) := by
  have h := activeCodes_platform_panic PANIC_HC_START notdef
  have hl := h
  simp only [activeCodes, List.cons.injEq, and_true] at hl
  obtain ⟨h0, h1, h2, h3, h4, h5, h6⟩ := hl
  refine ⟨h0, h1, h2, h3, h4, h5, h6, ?_, ?_, ?_, ?_⟩
  · rw [h]; rfl
  · rw [h]; simp [List.Chain']
  · rw [h]; simp
  · intro nd2; rw [h, activeCodes_platform_panic]

/-- Claim C4: for every base offset every active panic code is at least
`PANIC_HC_START`, so none lies in the range below the base, and the smallest
one, `PANIC_ADC`, is the base itself. -/
theorem active_codes_not_below_base (PANIC_HC_START : Nat) (notdef : Bool) :
    (∀ c ∈ activeCodes (platform_panic PANIC_HC_START notdef),
      ∃ v, c = some v ∧ PANIC_HC_START ≤ v ∧ ¬ v < PANIC_HC_START) ∧
    PANIC_ADC (platform_panic PANIC_HC_START notdef) = some PANIC_HC_START ∧
    (∀ c ∈ activeCodes (platform_panic PANIC_HC_START notdef),
      ∃ u v, PANIC_ADC (platform_panic PANIC_HC_START notdef) = some u ∧ c = some v ∧ u ≤ v) := by
  have h := activeCodes_platform_panic PANIC_HC_START notdef
  have h0 : PANIC_ADC (platform_panic PANIC_HC_START notdef) = some PANIC_HC_START := by
    simp only [activeCodes, List.cons.injEq] at h
    exact h.1
  rw [h, h0]
  simp

/-- Claim C5: compiling with `notdef` defined leaves the seven active codes
as they are, for every base offset; then `PANIC_SNS` is the base plus 7 and
`PANIC_PWR` the base plus 8, and these two differ from each other and from
every active code. -/
theorem reserved_tags_enabled (PANIC_HC_START : Nat) :
    activeCodes (platform_panic PANIC_HC_START true) =
      activeCodes (platform_panic PANIC_HC_START false) ∧
    PANIC_SNS true (platform_panic PANIC_HC_START true) = some (PANIC_HC_START + 7) ∧
    PANIC_PWR true (platform_panic PANIC_HC_START true) = some (PANIC_HC_START + 8) ∧
    PANIC_SNS true (platform_panic PANIC_HC_START true) ≠
      PANIC_PWR true (platform_panic PANIC_HC_START true) ∧
    PANIC_SNS true (platform_panic PANIC_HC_START true) ∉
      activeCodes (platform_panic PANIC_HC_START true) ∧
    PANIC_PWR true (platform_panic PANIC_HC_START true) ∉
      activeCodes (platform_panic PANIC_HC_START true) := by
  have hs : PANIC_SNS true (platform_panic PANIC_HC_START true) = some (PANIC_HC_START + 7) := by
    simp [PANIC_SNS, platform_panic, enumValues, pcodeEnumerators, activeEnumerators,
      reservedEnumerators, enumAssign, enumLookup]
  have hp : PANIC_PWR true (platform_panic PANIC_HC_START true) = some (PANIC_HC_START + 8) := by
    simp [PANIC_PWR, platform_panic, enumValues, pcodeEnumerators, activeEnumerators,
      reservedEnumerators, enumAssign, enumLookup]
  rw [hs, hp, activeCodes_platform_panic, activeCodes_platform_panic]
  simp

/-- Claim C6, as the code has it: an enumerator without initialiser written
after the `#endif` of the reserved block has the value base plus 7 while
`notdef` is undefined and base plus 9 once it is defined, the two reserved
constants being absent in the first case and base plus 7 and base plus 8 in
the second. -/
theorem appended_tag_after_reserved_block (PANIC_HC_START : Nat) (n : String)
    (hfresh : n ∉ (pcodeEnumerators PANIC_HC_START true).map (fun e => e.name)) :
    enumLookup n (platform_panic_with PANIC_HC_START false [] [⟨n, none⟩]) =
      some (PANIC_HC_START + 7) ∧
    enumLookup n (platform_panic_with PANIC_HC_START true [] [⟨n, none⟩]) =
      some (PANIC_HC_START + 9) ∧
    PANIC_SNS false (platform_panic_with PANIC_HC_START false [] [⟨n, none⟩]) = none ∧
    PANIC_PWR false (platform_panic_with PANIC_HC_START false [] [⟨n, none⟩]) = none ∧
    PANIC_SNS true (platform_panic_with PANIC_HC_START true [] [⟨n, none⟩]) =
      some (PANIC_HC_START + 7) ∧
    PANIC_PWR true (platform_panic_with PANIC_HC_START true [] [⟨n, none⟩]) =
      some (PANIC_HC_START + 8) := by
  simp only [pcodeEnumerators, activeEnumerators, reservedEnumerators, if_true, List.map_append,
    List.map_cons, List.map_nil, List.mem_append, List.mem_cons, List.mem_singleton,
    List.not_mem_nil, or_false, not_or] at hfresh
  obtain ⟨⟨h1, h2, h3, h4, h5, h6, h7⟩, h8, h9⟩ := hfresh
  simp [PANIC_SNS, PANIC_PWR, platform_panic_with, enumValues, pcodeEnumeratorsWith,
    activeEnumerators, reservedEnumerators, enumAssign, enumLookup, Ne.symm h1, Ne.symm h2,
    Ne.symm h3, Ne.symm h4, Ne.symm h5, Ne.symm h6, Ne.symm h7, Ne.symm h8, Ne.symm h9]

/-- Witness for the amended C6 at base `0x70` and the new enumerator
`__pcode_new`. -/
theorem appended_tag_after_reserved_block_witness :
    "__pcode_new" ∉ (pcodeEnumerators 0x70 true).map (fun e => e.name) ∧
    enumLookup "__pcode_new" (platform_panic_with 0x70 false [] [⟨"__pcode_new", none⟩]) =
      some 0x77 ∧
    enumLookup "__pcode_new" (platform_panic_with 0x70 true [] [⟨"__pcode_new", none⟩]) =
      some 0x79 :=
  ⟨by decide,
   (appended_tag_after_reserved_block 0x70 "__pcode_new" (by decide)).1,
   (appended_tag_after_reserved_block 0x70 "__pcode_new" (by decide)).2.1⟩

/-- Counterexample to C6 as stated: at base `0x70` an enumerator appended
after the reserved block is `0x77` with the reserved tags disabled and
`0x79` with them enabled, so it does not keep its value and the first free
value with the tags disabled is base plus 7, not base plus 9. -/
theorem appended_tag_renumbered_by_reserved_block :
    enumLookup "__pcode_new" (platform_panic_with 0x70 false [] [⟨"__pcode_new", none⟩]) =
      some (0x70 + 7) ∧
    enumLookup "__pcode_new" (platform_panic_with 0x70 true [] [⟨"__pcode_new", none⟩]) =
      some (0x70 + 9) ∧
    enumLookup "__pcode_new" (platform_panic_with 0x70 false [] [⟨"__pcode_new", none⟩]) ≠
      enumLookup "__pcode_new" (platform_panic_with 0x70 true [] [⟨"__pcode_new", none⟩]) ∧
    enumLookup "__pcode_new" (platform_panic_with 0x70 false [] [⟨"__pcode_new", none⟩]) ≠
      some (0x70 + 9) := by
  decide

/-- Claim C7: writing a new enumerator without initialiser after
`__pcode_gps` (directly after it, or after the `#endif` of the reserved
block) leaves the seven active codes unchanged for every base offset, in
fact whatever is written there, and the value of the new enumerator differs
from all seven. -/
theorem append_after_gps (PANIC_HC_START : Nat) (notdef : Bool) (n : String)
    (hfresh : n ∉ (pcodeEnumerators PANIC_HC_START notdef).map (fun e => e.name)) :
    (∀ mid tail : List Enumerator,
      activeCodes (platform_panic_with PANIC_HC_START notdef mid tail) =
        activeCodes (platform_panic PANIC_HC_START notdef)) ∧
    enumLookup n (platform_panic_with PANIC_HC_START notdef [⟨n, none⟩] []) =
      some (PANIC_HC_START + 7) ∧
    enumLookup n (platform_panic_with PANIC_HC_START notdef [] [⟨n, none⟩]) =
      some (PANIC_HC_START + (if notdef then 9 else 7)) ∧
    enumLookup n (platform_panic_with PANIC_HC_START notdef [⟨n, none⟩] []) ∉
      activeCodes (platform_panic_with PANIC_HC_START notdef [⟨n, none⟩] []) ∧
    enumLookup n (platform_panic_with PANIC_HC_START notdef [] [⟨n, none⟩]) ∉
      activeCodes (platform_panic_with PANIC_HC_START notdef [] [⟨n, none⟩]) := by
  have hmid : enumLookup n (platform_panic_with PANIC_HC_START notdef [⟨n, none⟩] []) =
      some (PANIC_HC_START + 7) := by
    cases notdef <;>
    · simp only [pcodeEnumerators, activeEnumerators, reservedEnumerators, List.map_append,
        List.map_cons, List.map_nil, List.mem_append, List.mem_cons, List.mem_singleton,
        List.not_mem_nil, or_false, not_or] at hfresh
      obtain ⟨⟨h1, h2, h3, h4, h5, h6, h7⟩, -⟩ := hfresh
      simp [platform_panic_with, enumValues, pcodeEnumeratorsWith, activeEnumerators,
        reservedEnumerators, enumAssign, enumLookup, Ne.symm h1, Ne.symm h2, Ne.symm h3,
        Ne.symm h4, Ne.symm h5, Ne.symm h6, Ne.symm h7]
  have htail : enumLookup n (platform_panic_with PANIC_HC_START notdef [] [⟨n, none⟩]) =
      some (PANIC_HC_START + (if notdef then 9 else 7)) := by
    cases notdef
    · simp only [pcodeEnumerators, activeEnumerators, reservedEnumerators, List.map_append,
        List.map_cons, List.map_nil, List.mem_append, List.mem_cons, List.mem_singleton,
        List.not_mem_nil, or_false, not_or] at hfresh
      obtain ⟨⟨h1, h2, h3, h4, h5, h6, h7⟩, -⟩ := hfresh
      simp [platform_panic_with, enumValues, pcodeEnumeratorsWith, activeEnumerators,
        reservedEnumerators, enumAssign, enumLookup, Ne.symm h1, Ne.symm h2, Ne.symm h3,
        Ne.symm h4, Ne.symm h5, Ne.symm h6, Ne.symm h7]
    · simp only [pcodeEnumerators, activeEnumerators, reservedEnumerators, if_true,
        List.map_append, List.map_cons, List.map_nil, List.mem_append, List.mem_cons,
        List.mem_singleton, List.not_mem_nil, or_false, not_or] at hfresh
      obtain ⟨⟨h1, h2, h3, h4, h5, h6, h7⟩, h8, h9⟩ := hfresh
      simp [platform_panic_with, enumValues, pcodeEnumeratorsWith, activeEnumerators,
        reservedEnumerators, enumAssign, enumLookup, Ne.symm h1, Ne.symm h2, Ne.symm h3,
        Ne.symm h4, Ne.symm h5, Ne.symm h6, Ne.symm h7, Ne.symm h8, Ne.symm h9]
  refine ⟨?_, hmid, htail, ?_, ?_⟩
  · intro mid tail
    rw [activeCodes_platform_panic_with, activeCodes_platform_panic]
  · rw [hmid, activeCodes_platform_panic_with]
    simp
  · rw [htail, activeCodes_platform_panic_with]
    cases notdef <;> simp

/-- Witness for C7 at base `0x70`, `notdef` undefined and the new
enumerator `__pcode_new`. -/
theorem append_after_gps_witness :
    "__pcode_new" ∉ (pcodeEnumerators 0x70 false).map (fun e => e.name) ∧
    activeCodes (platform_panic_with 0x70 false [⟨"__pcode_new", none⟩] []) =
      activeCodes (platform_panic 0x70 false) ∧
    enumLookup "__pcode_new" (platform_panic_with 0x70 false [⟨"__pcode_new", none⟩] []) =
      some 0x77 :=
  ⟨by decide,
   (append_after_gps 0x70 false "__pcode_new" (by decide)).1 [⟨"__pcode_new", none⟩] [],
   (append_after_gps 0x70 false "__pcode_new" (by decide)).2.1⟩

/-- Claim C10: at base `0x70` every active code, and `PANIC_SNS` and
`PANIC_PWR` when enabled, is at most `0xFF` and unchanged by truncation to an
unsigned byte; for any base the seven active codes all fit an unsigned byte
exactly when the base is at most `0xF9`; and for a larger base some active
code, truncated to 8 bits, is below the base. -/
theorem panic_codes_fit_uint8 :
    (∀ notdef : Bool, ∀ c ∈ activeCodes (platform_panic 0x70 notdef),
      ∃ v, c = some v ∧ v ≤ 0xFF ∧ toUint8 v = v) ∧
    (∀ c ∈ [PANIC_SNS true (platform_panic 0x70 true), PANIC_PWR true (platform_panic 0x70 true)],
      ∃ v, c = some v ∧ v ≤ 0xFF ∧ toUint8 v = v) ∧
    (∀ (PANIC_HC_START : Nat) (notdef : Bool),
      (∀ c ∈ activeCodes (platform_panic PANIC_HC_START notdef), ∃ v, c = some v ∧ v ≤ 0xFF) ↔
        PANIC_HC_START ≤ 0xF9) ∧
    (∀ (PANIC_HC_START : Nat) (notdef : Bool),
      (∀ c ∈ activeCodes (platform_panic PANIC_HC_START notdef),
        ∃ v, c = some v ∧ toUint8 v = v) ↔ PANIC_HC_START ≤ 0xF9) ∧
    (∀ (PANIC_HC_START : Nat) (notdef : Bool), 0xF9 < PANIC_HC_START →
      ∃ c ∈ activeCodes (platform_panic PANIC_HC_START notdef),
        ∃ v, c = some v ∧ toUint8 v < PANIC_HC_START) := by
  have h256 : (2 : Nat) ^ 8 = 256 := by norm_num
  refine ⟨?_, ?_, ?_, ?_, ?_⟩
  · intro nd c hc
    rw [activeCodes_platform_panic] at hc
    simp only [List.mem_cons, List.mem_singleton, List.not_mem_nil, or_false] at hc
    rcases hc with h | h | h | h | h | h | h <;> subst h <;>
      exact ⟨_, rfl, by decide, by decide⟩
  · intro c hc
    have hs : PANIC_SNS true (platform_panic 0x70 true) = some 0x77 := by decide
    have hp : PANIC_PWR true (platform_panic 0x70 true) = some 0x78 := by decide
    rw [hs, hp] at hc
    simp only [List.mem_cons, List.mem_singleton, List.not_mem_nil, or_false] at hc
    rcases hc with h | h <;> subst h <;> exact ⟨_, rfl, by decide, by decide⟩
  · intro b nd
    rw [activeCodes_platform_panic]
    constructor
    · intro h
      obtain ⟨v, hv, hle⟩ := h (some (b + 6)) (by simp)
      simp only [Option.some.injEq] at hv
      omega
    · intro hb c hc
      simp only [List.mem_cons, List.mem_singleton, List.not_mem_nil, or_false] at hc
      rcases hc with h | h | h | h | h | h | h <;> subst h <;>
        exact ⟨_, rfl, by omega⟩
  · intro b nd
    rw [activeCodes_platform_panic]
    constructor
    · intro h
      obtain ⟨v, hv, hle⟩ := h (some (b + 6)) (by simp)
      simp only [Option.some.injEq] at hv
      simp only [toUint8, h256] at hle
      omega
    · intro hb c hc
      simp only [List.mem_cons, List.mem_singleton, List.not_mem_nil, or_false] at hc
      rcases hc with h | h | h | h | h | h | h <;> subst h <;>
        exact ⟨_, rfl, by simp only [toUint8, h256]; omega⟩
  · intro b nd hb
    rw [activeCodes_platform_panic]
    refine ⟨some (b + 6), by simp, b + 6, rfl, ?_⟩
    simp only [toUint8, h256]
    omega

end PlatformPanic

namespace PlatformVersion

/-- Claim C8: the version constants of the dev6a platform are major 0,
minor 4, hardware model `0xF0` (240) and hardware revision 1. -/
theorem dev6a_version_constants :
    MAJOR = 0 ∧ MINOR = 4 ∧ HW_MODEL = 0xF0 ∧ HW_MODEL = 240 ∧ HW_REV = 1 := by
  decide

/-- Claim C9: each of `MAJOR`, `MINOR`, `HW_MODEL` and `HW_REV` lies between
0 and 255, so storing it in an unsigned 8-bit field leaves it unchanged. -/
theorem dev6a_version_constants_fit_uint8 :
    (0 ≤ MAJOR ∧ MAJOR ≤ 255 ∧ toUint8 MAJOR = MAJOR) ∧
    (0 ≤ MINOR ∧ MINOR ≤ 255 ∧ toUint8 MINOR = MINOR) ∧
    (0 ≤ HW_MODEL ∧ HW_MODEL ≤ 255 ∧ toUint8 HW_MODEL = HW_MODEL) ∧
    (0 ≤ HW_REV ∧ HW_REV ≤ 255 ∧ toUint8 HW_REV = HW_REV) := by
  decide

end PlatformVersion

end MM
